import Mathlib

/-!
A shallow embedding of `src/template.py` (a script that generates a
work-anniversary PowerPoint presentation from spreadsheet rows by driving
the PowerPoint COM automation interface), together with theorems about the
claims of the specification.

Modelling conventions:
* Python strings are Lean `String`s (both are sequences of Unicode code
  points, so `len` is `String.length`).
* Python `str.strip` / `str.split` / `str.lower` / `str.capitalize` /
  `str.splitlines` / `str.join` are modelled by the `py*` functions below,
  mirroring CPython's documented behaviour on the whitespace and
  line-boundary character tables.
* The external COM objects (presentation, slides, shapes) are modelled by
  explicit data: a presentation is a `List Slide`, and every text box the
  script adds inside the message loop is recorded as a `TextBox`.
  Formatting calls (font, color, alignment) are side effects on the
  external host that carry no information used by any claim and are not
  tracked.
* Machine-level failures of the COM host and of the filesystem are inputs
  of the model (`createObjectOk`, `removeOk`, ...); `PyErr` is the error
  currency and `Except PyErr` models Python exceptions.
-/

namespace Template

/-- Python exception values, as far as the script distinguishes them. -/
inductive PyErr where
  | valueError (msg : String)
  | comError (msg : String)
  | nameError (localVar : String)
  | indexError
  | attributeError
deriving DecidableEq, Repr

/-! ## Python string primitives -/

/-- The characters for which CPython's `str.isspace` returns `True`
(the table `str.split()` and `str.strip()` split/strip on). -/
def pyWhitespace : List Char :=
  [' ', '\t', '\n', '\x0b', '\x0c', '\r',
   '\x1c', '\x1d', '\x1e', '\x1f', '\x85', '\xa0',
   ' ', ' ', ' ', ' ', ' ', ' ', ' ',
   ' ', ' ', ' ', ' ', ' ',
   ' ', ' ', ' ', ' ', '　']

def pyIsSpace (c : Char) : Bool := pyWhitespace.contains c

/-- Python `str.strip()` with no argument: remove leading and trailing whitespace. -/
def pyStrip (s : String) : String :=
  String.mk (((s.data.dropWhile pyIsSpace).reverse.dropWhile pyIsSpace).reverse)

/-- Python `str.lower()` (ASCII part of the mapping; the script only compares the
result against the ASCII literal `"nan"`). -/
def pyLower (s : String) : String := String.mk (s.data.map Char.toLower)

/-- Python `str.capitalize()`: first character upper-cased, the rest lower-cased. -/
def pyCapitalize (w : String) : String :=
  match w.data with
  | [] => ""
  | c :: cs => String.mk (c.toUpper :: cs.map Char.toLower)

/-- Worker for `pySplit`: accumulate the current word (reversed) and cut at
whitespace, dropping empty pieces, exactly as `str.split()` with no
separator does. -/
def pySplitAux : List Char → List Char → List String
  | [], acc => if acc.isEmpty then [] else [String.mk acc.reverse]
  | c :: rest, acc =>
    if pyIsSpace c then
      if acc.isEmpty then pySplitAux rest []
      else String.mk acc.reverse :: pySplitAux rest []
    else pySplitAux rest (c :: acc)

/-- Python `str.split()` with no argument: split on runs of whitespace, no empty
words. -/
def pySplit (s : String) : List String := pySplitAux s.data []

/-- The characters CPython's `str.splitlines` treats as line boundaries. -/
def pyLineBreaks : List Char :=
  ['\n', '\r', '\x0b', '\x0c', '\x1c', '\x1d', '\x1e', '\x85', ' ', ' ']

def pyIsLineBreak (c : Char) : Bool := pyLineBreaks.contains c

/-- Worker for `pySplitlines`; `"\r\n"` counts as a single boundary. -/
def pySplitlinesAux : List Char → List Char → List String
  | [], acc => if acc.isEmpty then [] else [String.mk acc.reverse]
  | '\r' :: '\n' :: rest, acc => String.mk acc.reverse :: pySplitlinesAux rest []
  | c :: rest, acc =>
    if pyIsLineBreak c then String.mk acc.reverse :: pySplitlinesAux rest []
    else pySplitlinesAux rest (c :: acc)

/-- Python `str.splitlines()`. -/
def pySplitlines (s : String) : List String := pySplitlinesAux s.data []

/-- Worker for `pyJoin`: the separator-prefixed tail of the join. -/
def pyJoinRest (sep : String) : List String → String
  | [] => ""
  | v :: vs => sep ++ v ++ pyJoinRest sep vs

/-- Python `sep.join(l)`. -/
def pyJoin (sep : String) : List String → String
  | [] => ""
  | w :: ws => w ++ pyJoinRest sep ws

/-! ## `rgb_to_ole` -/

/-- Model of `rgb_to_ole(red, green, blue)`: convert RGB to the OLE color format
used by PowerPoint (`red + (green * 256) + (blue * 256 * 256)`). -/
def rgb_to_ole (red green blue : Nat) : Nat :=
  red + (green * 256) + (blue * 256 * 256)

/-! ## Presentation model -/

/-- A slide of the open presentation. Slide identity is all the claims
need: `cover` is the first slide of the template, `template` the message
template (slide 2), `extra i` any further slide the template might have,
`messageCopy id` the `id`-th copy produced by `duplicate_slide` during the
message loop, and `thankYou` the slide produced by `add_thank_you_slide`
(a duplicate of the cover whose shapes are rewritten to "Thank You"). -/
inductive Slide where
  | cover
  | template
  | extra (i : Nat)
  | messageCopy (id : Nat)
  | thankYou
deriving DecidableEq, Repr

/-- Model of `duplicate_slide(presentation, slide_index)`: raise `ValueError` when
the 1-based index is out of range, otherwise insert the duplicate
immediately after the original (PowerPoint's `Slide.Duplicate`) and return
it. The duplicate itself is supplied as `fresh` since slide contents are
tracked only by identity. -/
def duplicate_slide (slides : List Slide) (slide_index : Nat) (fresh : Slide) :
    Except PyErr (List Slide × Slide) :=
  if slide_index < 1 || slide_index > slides.length then
    Except.error (PyErr.valueError
      ("Invalid slide index: " ++ toString slide_index ++
       ". Must be between 1 and " ++ toString slides.length))
  else
    Except.ok (slides.take slide_index ++ [fresh] ++ slides.drop slide_index, fresh)

/-- Role of a text box added inside the message loop. -/
inductive Role where
  | message
  | signature
deriving DecidableEq, Repr

/-- A text box added by `Shapes.AddTextbox` during the message loop,
with the arguments the script passed and the slide it was added to.
`slot` records the value of `messages_on_slide` used as the lookup index
into the position table; `boundHeight` records the `BoundHeight` the COM
host reported for the message box of the same row. -/
structure TextBox where
  slideId : Nat
  left : Int
  top : Int
  width : Int
  height : Int
  text : String
  role : Role
  slot : Nat
  boundHeight : Int
deriving DecidableEq, Repr

/-- One spreadsheet row (`str(row['Name'])`, `str(row['Wishes'])`), plus
the `BoundHeight` the COM host reports for the row's message text box. -/
structure Row where
  name : String
  wishes : String
  boundHeight : Int
deriving DecidableEq, Repr

/-- Dimensions of `presentation.PageSetup` (whole points). -/
structure PageSetup where
  slideWidth : Int
  slideHeight : Int
deriving DecidableEq, Repr

/-- Constant `message_template_index = 2`. -/
def message_template_index : Nat := 2

/-- Constant `max_messages_per_slide = 2`. -/
def max_messages_per_slide : Nat := 2

/-- The mutable state of the message loop: `messages_on_slide`,
`current_slide` (by id), the slide list of the open presentation, the
number of duplications performed so far (used to mint fresh slide ids),
and the trace of text boxes added so far. -/
structure LoopState where
  messagesOnSlide : Nat
  currentSlide : Option Nat
  slides : List Slide
  dups : Nat
  boxes : List TextBox
deriving DecidableEq, Repr

/-- Formatted name of a row:
`" ".join(word.capitalize() for word in raw.strip().split() if word)`. -/
def formatName (raw : String) : String :=
  pyJoin " " (((pySplit (pyStrip raw)).filter (fun w => !(w == ""))).map pyCapitalize)

/-- Signature text: `f"- {', '.join(name.splitlines())}"`. -/
def signatureText (name : String) : String :=
  "- " ++ pyJoin ", " (pySplitlines name)

/-- Row-skip test: `not message or message.lower() == 'nan'`. -/
def rowSkipped (row : Row) : Bool :=
  let message := pyStrip row.wishes
  message == "" || pyLower message == "nan"

/-- The body of the `for index, row in df.iterrows()` loop for one row:
compute the formatted name and stripped message, skip empty/"nan"
messages, duplicate the message-template slide when a long message
arrives, the current slide is full, or no slide exists yet, pick the text
position from the lookup table, add the message and signature text boxes
and advance `messages_on_slide`. Python's runtime errors are modelled:
`text_positions[messages_on_slide]` out of range is `IndexError` and
`None.Shapes` is `AttributeError`. -/
def processRow (ps : PageSetup) (st : LoopState) (row : Row) :
    Except PyErr LoopState :=
  let name := formatName row.name
  let message := pyStrip row.wishes
  if message == "" || pyLower message == "nan" then Except.ok st
  else
    let is_long_message : Bool := decide (150 < message.length)
    let step1 : Except PyErr (LoopState × Nat) :=
      if is_long_message
          || decide (max_messages_per_slide ≤ st.messagesOnSlide)
          || decide (st.currentSlide = none) then
        match duplicate_slide st.slides message_template_index
            (Slide.messageCopy (st.dups + 1)) with
        | Except.error e => Except.error e
        | Except.ok (slides2, _) =>
          Except.ok
            ({ st with
               slides := slides2, dups := st.dups + 1,
               currentSlide := some (st.dups + 1), messagesOnSlide := 0 },
             st.dups + 1)
      else
        match st.currentSlide with
        | some c => Except.ok (st, c)
        | none => Except.error PyErr.attributeError
    match step1 with
    | Except.error e => Except.error e
    | Except.ok (st1, cur) =>
      let text_positions : List (Int × Int) :=
        if is_long_message then
          [(Int.fdiv ps.slideWidth 2 - 250, Int.fdiv ps.slideHeight 3)]
        else [(100, 100), (100, 250)]
      match text_positions.get? st1.messagesOnSlide with
      | none => Except.error PyErr.indexError
      | some text_position =>
        let msgBox : TextBox :=
          { slideId := cur, left := text_position.1, top := text_position.2,
            width := 500, height := 100, text := message, role := Role.message,
            slot := st1.messagesOnSlide, boundHeight := row.boundHeight }
        let sigBox : TextBox :=
          { slideId := cur, left := text_position.1,
            top := text_position.2 + row.boundHeight + 10,
            width := 500, height := 30, text := signatureText name,
            role := Role.signature,
            slot := st1.messagesOnSlide, boundHeight := row.boundHeight }
        Except.ok
          { st1 with
            boxes := st1.boxes ++ [msgBox, sigBox],
            messagesOnSlide := st1.messagesOnSlide +
              (if is_long_message then max_messages_per_slide else 1) }

/-- The whole message loop over the spreadsheet rows. -/
def runLoop (ps : PageSetup) (st : LoopState) : List Row → Except PyErr LoopState
  | [] => Except.ok st
  | r :: rs =>
    match processRow ps st r with
    | Except.error e => Except.error e
    | Except.ok st2 => runLoop ps st2 rs

/-- The loop state right before the first iteration. -/
def initLoopState (templateSlides : List Slide) : LoopState :=
  { messagesOnSlide := 0, currentSlide := none, slides := templateSlides,
    dups := 0, boxes := [] }

/-! ## The surrounding functions -/

/-- How a call to one of the script's top-level functions ends.
`earlyReturn` is a `print(...); return` taken before the `try:` block (in
particular before any PowerPoint automation object or output file is
created); `returnedCaught` is a normal return after the `except` clause
caught and printed an exception raised in the body; `completed` is the
success path; `uncaught` is an exception that propagates to the caller. -/
inductive FuncResult (α : Type) where
  | earlyReturn (msg : String)
  | returnedCaught (e : PyErr)
  | completed (v : α)
  | uncaught (e : PyErr)
deriving DecidableEq, Repr

/-- Constant `required_columns = ['Name', 'Wishes']`. -/
def required_columns : List String := ["Name", "Wishes"]

/-- Model of `add_name_to_first_slide(presentation, user_name)`: it accesses
`presentation.Slides(1)`; on a presentation with no slides the COM host
raises. The text box it adds on success lives on the cover slide and is
tracked by no claim. -/
def add_name_to_first_slide (slides : List Slide) : Except PyErr Unit :=
  if slides.length < 1 then
    Except.error (PyErr.comError "Slides(1): index out of range")
  else Except.ok ()

/-- Model of `add_thank_you_slide(presentation)`: duplicate slide 1 (the copy is
inserted right after it), then `MoveTo(Slides.Count)` sends the copy to
the last position; its shapes are then rewritten into the "Thank You"
text box, which the model folds into the `Slide.thankYou` tag. -/
def add_thank_you_slide (slides : List Slide) : Except PyErr (List Slide) :=
  if slides.length < 1 then
    Except.error (PyErr.comError "Slides(1): index out of range")
  else
    let afterDup := slides.take 1 ++ [Slide.thankYou] ++ slides.drop 1
    Except.ok (afterDup.eraseIdx 1 ++ [Slide.thankYou])

/-- The inputs `create_anniversary_slides` reacts to: whether the template
file exists, the raw Excel column names, the rows, the slides of the
opened template, the page dimensions, and whether
`CreateObject("PowerPoint.Application")` succeeds. -/
structure CreateArgs where
  templateFileExists : Bool
  columns : List String
  rows : List Row
  templateSlides : List Slide
  pageSetup : PageSetup
  createObjectOk : Bool
deriving Repr

/-- The `try:` suite of `create_anniversary_slides`: create the COM
application, open the template, add the user name to the first slide,
check the slide count, run the message loop, delete the leftover template
slide when more than 2 slides exist, append the thank-you slide and save.
Returns the slides of the saved presentation and the text boxes added on
message slides. -/
def createBody (a : CreateArgs) : Except PyErr (List Slide × List TextBox) :=
  if !a.createObjectOk then
    Except.error (PyErr.comError "CreateObject failed")
  else
    match add_name_to_first_slide a.templateSlides with
    | Except.error e => Except.error e
    | Except.ok _ =>
      if a.templateSlides.length < 2 then
        Except.error (PyErr.valueError
          "Template must have at least 2 slides (cover + message template).")
      else
        match runLoop a.pageSetup (initLoopState a.templateSlides) a.rows with
        | Except.error e => Except.error e
        | Except.ok finalSt =>
          let afterDelete :=
            if finalSt.slides.length > 2 then finalSt.slides.eraseIdx 1
            else finalSt.slides
          match add_thank_you_slide afterDelete with
          | Except.error e => Except.error e
          | Except.ok savedSlides => Except.ok (savedSlides, finalSt.boxes)

/-- Model of `create_anniversary_slides(excel_path, template_path, output_path)`:
missing template file and missing required columns (after stripping the
column names) print and return before the `try:` block; every exception
raised in the body is caught by `except Exception` and printed. -/
def create_anniversary_slides (a : CreateArgs) : FuncResult (List Slide × List TextBox) :=
  if !a.templateFileExists then
    FuncResult.earlyReturn "Error: template not found. Run modify_pptx() first."
  else
    let cols := a.columns.map pyStrip
    if !(required_columns.all (fun c => cols.contains c)) then
      FuncResult.earlyReturn "Error: Missing required columns in Excel file"
    else
      match createBody a with
      | Except.error e => FuncResult.returnedCaught e
      | Except.ok v => FuncResult.completed v

/-- The inputs `modify_pptx` reacts to. `removeOk` is whether
`os.remove(output_path)` succeeds (on Windows a locked file raises
`PermissionError`, the only failure the script distinguishes);
`bodyOutcome` abstracts the rest of the `try:` suite after `CreateObject`
(opening the input, parsing the anniversary number, slide surgery,
saving); `quitOk` is whether `powerpoint.Quit()` in the `finally:` clause
succeeds. -/
structure ModifyArgs where
  inputFileExists : Bool
  outputFileExists : Bool
  removeOk : Bool
  createObjectOk : Bool
  bodyOutcome : Except PyErr Unit
  quitOk : Bool
deriving Repr

/-- Model of `modify_pptx(input_path, output_path)`. The missing-input and
locked-output checks print and return before the `try:` block. Inside,
`except Exception` catches and prints any exception of the suite — but the
`finally:` clause then runs `powerpoint.Quit()`: when `CreateObject` itself
failed, the local `powerpoint` was never bound, so the `finally:` clause
raises `NameError` (an `UnboundLocalError`), and when `Quit` raises, that
exception propagates; both escape to the caller. -/
def modify_pptx (a : ModifyArgs) : FuncResult Unit :=
  if !a.inputFileExists then
    FuncResult.earlyReturn "Error: Input PowerPoint file not found"
  else if a.outputFileExists && !a.removeOk then
    FuncResult.earlyReturn "Cannot modify output: it is open. Close it and try again."
  else
    let tryOutcome : Except PyErr Unit :=
      if !a.createObjectOk then Except.error (PyErr.comError "CreateObject failed")
      else a.bodyOutcome
    if a.createObjectOk then
      if a.quitOk then
        match tryOutcome with
        | Except.error e => FuncResult.returnedCaught e
        | Except.ok _ => FuncResult.completed ()
      else FuncResult.uncaught (PyErr.comError "Quit failed")
    else FuncResult.uncaught (PyErr.nameError "powerpoint")

/-! ## Invariants of the message loop -/

/-- Predicate: `b` is a message text box sitting on slide `id`. -/
def isMsgOn (id : Nat) (b : TextBox) : Bool :=
  b.role == Role.message && b.slideId == id

/-- The message text boxes of slide `id`, in the order they were added. -/
def msgBoxesOn (boxes : List TextBox) (id : Nat) : List TextBox :=
  boxes.filter (isMsgOn id)

/-- The position table of the script, per message box: a long message sits
at `(SlideWidth // 2 - 250, SlideHeight // 3)` with lookup index 0; a
short message sits at `(100, 100)` for index 0 and `(100, 250)` for
index 1. -/
def BoxOk (ps : PageSetup) (b : TextBox) : Prop :=
  b.role = Role.message →
    ((150 < b.text.length →
        b.slot = 0 ∧ b.left = Int.fdiv ps.slideWidth 2 - 250 ∧
        b.top = Int.fdiv ps.slideHeight 3) ∧
     (b.text.length ≤ 150 →
        (b.slot = 0 ∧ b.left = 100 ∧ b.top = 100) ∨
        (b.slot = 1 ∧ b.left = 100 ∧ b.top = 250)))

/-- The box trace alternates message/signature pairs: every message box is
immediately followed by its signature box, on the same slide, at the same
left coordinate, 10 points below the message top plus the reported
`BoundHeight`. -/
inductive Paired : List TextBox → Prop where
  | nil : Paired []
  | pair (mb sb : TextBox) (rest : List TextBox) :
      mb.role = Role.message → sb.role = Role.signature →
      sb.slideId = mb.slideId → sb.left = mb.left →
      sb.top = mb.top + mb.boundHeight + 10 →
      sb.slot = mb.slot → sb.boundHeight = mb.boundHeight →
      Paired rest → Paired (mb :: sb :: rest)

/-- Relation between `current_slide`, `messages_on_slide` and the boxes
already on the current slide: before the first duplication nothing was
added; afterwards the current slide is the most recent duplicate, and
either it holds one long message and the counter is saturated at 2, or it
holds `messages_on_slide` short messages. -/
def CurrentOk (st : LoopState) : Prop :=
  match st.currentSlide with
  | none => st.boxes = [] ∧ st.dups = 0
  | some c =>
    c = st.dups ∧
    ((st.messagesOnSlide = 2 ∧ (msgBoxesOn st.boxes c).length = 1 ∧
        ∃ b ∈ msgBoxesOn st.boxes c, 150 < b.text.length) ∨
     (st.messagesOnSlide ≤ 2 ∧
        (msgBoxesOn st.boxes c).length = st.messagesOnSlide ∧
        ∀ b ∈ msgBoxesOn st.boxes c, b.text.length ≤ 150))

/-- The loop invariant. -/
structure GoodState (ps : PageSetup) (st : LoopState) : Prop where
  slides_len : 2 ≤ st.slides.length
  ids_le : ∀ b ∈ st.boxes, b.slideId ≤ st.dups
  slots : ∀ id, (msgBoxesOn st.boxes id).map TextBox.slot =
            List.range (msgBoxesOn st.boxes id).length
  at_most_two : ∀ id, (msgBoxesOn st.boxes id).length ≤ 2
  long_alone : ∀ id b, b ∈ msgBoxesOn st.boxes id → 150 < b.text.length →
                 (msgBoxesOn st.boxes id).length = 1
  box_ok : ∀ b ∈ st.boxes, BoxOk ps b
  paired : Paired st.boxes
  current_ok : CurrentOk st

/-! ## Sanity checks of the string primitives -/

example : rgb_to_ole 255 0 0 = 255 := by decide
example : pyStrip "  hi \n" = "hi" := by decide
example : pySplit " john  SMITH " = ["john", "SMITH"] := by decide
example : pyCapitalize "sMITH" = "Smith" := by decide
example : pySplitlines "a\r\nb" = ["a", "b"] := by decide
example : pySplitlines "" = [] := by decide
example : pyJoin ", " ["a", "b"] = "a, b" := by decide
example : pyLower "NaN" = "nan" := by decide
example : formatName "  john SMITH  " = "John Smith" := by decide
example : signatureText "Ann Lee" = "- Ann Lee" := by decide

/-! ## Behaviour of `duplicate_slide` -/

theorem duplicate_slide_ok (slides : List Slide) (fresh : Slide)
    (hlen : 2 ≤ slides.length) :
    duplicate_slide slides 2 fresh =
      Except.ok (slides.take 2 ++ [fresh] ++ slides.drop 2, fresh) := by
  unfold duplicate_slide
  have h1 : (2 < 1 || 2 > slides.length) = false := by
    simp only [Bool.or_eq_false_iff, decide_eq_false_iff_not]
    omega
  rw [h1]
  rfl

theorem duplicate_slide_valueError_iff (slides : List Slide) (i : Nat) (fresh : Slide) :
    (∃ m, duplicate_slide slides i fresh = Except.error (PyErr.valueError m)) ↔
      (i < 1 ∨ slides.length < i) := by
  unfold duplicate_slide
  by_cases h : (i < 1 || i > slides.length) = true
  · rw [if_pos h]
    simp only [Bool.or_eq_true, decide_eq_true_eq] at h
    exact ⟨fun _ => h, fun _ => ⟨_, rfl⟩⟩
  · rw [if_neg h]
    simp only [Bool.or_eq_true, decide_eq_true_eq] at h
    push_neg at h
    constructor
    · rintro ⟨m, hm⟩
      exact absurd hm (by simp)
    · intro hc
      omega

/-! ## One-step behaviour of the message loop -/

theorem processRow_skipped (ps : PageSetup) (st : LoopState) (row : Row)
    (h : rowSkipped row = true) : processRow ps st row = Except.ok st := by
  have h2 : (pyStrip row.wishes == "" || pyLower (pyStrip row.wishes) == "nan") = true := by
    simpa [rowSkipped] using h
  simp [processRow, h2]

theorem processRow_long (ps : PageSetup) (st : LoopState) (row : Row)
    (hv : rowSkipped row = false)
    (hlong : 150 < (pyStrip row.wishes).length)
    (hlen : 2 ≤ st.slides.length) :
    processRow ps st row = Except.ok
      { messagesOnSlide := 2,
        currentSlide := some (st.dups + 1),
        slides := st.slides.take 2 ++ [Slide.messageCopy (st.dups + 1)] ++ st.slides.drop 2,
        dups := st.dups + 1,
        boxes := st.boxes ++
          [{ slideId := st.dups + 1,
             left := Int.fdiv ps.slideWidth 2 - 250, top := Int.fdiv ps.slideHeight 3,
             width := 500, height := 100, text := pyStrip row.wishes,
             role := Role.message, slot := 0, boundHeight := row.boundHeight },
           { slideId := st.dups + 1,
             left := Int.fdiv ps.slideWidth 2 - 250,
             top := Int.fdiv ps.slideHeight 3 + row.boundHeight + 10,
             width := 500, height := 30, text := signatureText (formatName row.name),
             role := Role.signature, slot := 0, boundHeight := row.boundHeight }] } := by
  have h2 : (pyStrip row.wishes == "" || pyLower (pyStrip row.wishes) == "nan") = false := by
    simpa [rowSkipped] using hv
  have hl : decide (150 < (pyStrip row.wishes).length) = true := decide_eq_true hlong
  simp only [processRow, h2, hl, message_template_index, Bool.true_or,
    Bool.false_eq_true, if_false, if_true]
  rw [duplicate_slide_ok _ _ hlen]
  simp [max_messages_per_slide]

theorem processRow_short_new (ps : PageSetup) (st : LoopState) (row : Row)
    (hv : rowSkipped row = false)
    (hshort : (pyStrip row.wishes).length ≤ 150)
    (htrig : 2 ≤ st.messagesOnSlide ∨ st.currentSlide = none)
    (hlen : 2 ≤ st.slides.length) :
    processRow ps st row = Except.ok
      { messagesOnSlide := 1,
        currentSlide := some (st.dups + 1),
        slides := st.slides.take 2 ++ [Slide.messageCopy (st.dups + 1)] ++ st.slides.drop 2,
        dups := st.dups + 1,
        boxes := st.boxes ++
          [{ slideId := st.dups + 1, left := 100, top := 100,
             width := 500, height := 100, text := pyStrip row.wishes,
             role := Role.message, slot := 0, boundHeight := row.boundHeight },
           { slideId := st.dups + 1, left := 100,
             top := 100 + row.boundHeight + 10,
             width := 500, height := 30, text := signatureText (formatName row.name),
             role := Role.signature, slot := 0, boundHeight := row.boundHeight }] } := by
  have h2 : (pyStrip row.wishes == "" || pyLower (pyStrip row.wishes) == "nan") = false := by
    simpa [rowSkipped] using hv
  have hl : decide (150 < (pyStrip row.wishes).length) = false := by
    simp
    omega
  have ht : (decide (150 < (pyStrip row.wishes).length) ||
      (decide (max_messages_per_slide ≤ st.messagesOnSlide) ||
       decide (st.currentSlide = none))) = true := by
    rcases htrig with h | h <;>
      simp [hl, max_messages_per_slide, h]
  simp only [processRow, h2, hl, message_template_index, Bool.or_assoc, ht,
    Bool.false_eq_true, if_false, if_true]
  rw [duplicate_slide_ok _ _ hlen]
  simp only [max_messages_per_slide, decide_eq_true_eq, Bool.false_or, Bool.or_eq_true]
  rw [if_pos htrig]
  simp

theorem processRow_short_cont (ps : PageSetup) (st : LoopState) (row : Row) (c : Nat)
    (hv : rowSkipped row = false)
    (hshort : (pyStrip row.wishes).length ≤ 150)
    (hc : st.currentSlide = some c)
    (hm : st.messagesOnSlide < 2) :
    processRow ps st row = Except.ok
      { st with
        messagesOnSlide := st.messagesOnSlide + 1,
        boxes := st.boxes ++
          [{ slideId := c, left := 100,
             top := if st.messagesOnSlide = 0 then 100 else 250,
             width := 500, height := 100, text := pyStrip row.wishes,
             role := Role.message, slot := st.messagesOnSlide,
             boundHeight := row.boundHeight },
           { slideId := c, left := 100,
             top := (if st.messagesOnSlide = 0 then (100 : Int) else 250) +
               row.boundHeight + 10,
             width := 500, height := 30, text := signatureText (formatName row.name),
             role := Role.signature, slot := st.messagesOnSlide,
             boundHeight := row.boundHeight }] } := by
  have h2 : (pyStrip row.wishes == "" || pyLower (pyStrip row.wishes) == "nan") = false := by
    simpa [rowSkipped] using hv
  have hl : decide (150 < (pyStrip row.wishes).length) = false := by
    simp
    omega
  have ht : (decide (150 < (pyStrip row.wishes).length) ||
      (decide (max_messages_per_slide ≤ st.messagesOnSlide) ||
       decide (st.currentSlide = none))) = false := by
    simp [hl, max_messages_per_slide, hc]
    omega
  simp only [processRow, h2, hl, message_template_index, Bool.or_assoc, ht,
    Bool.false_eq_true, if_false, hc]
  interval_cases h : st.messagesOnSlide <;> simp [h, hc, max_messages_per_slide]

theorem processRow_dup_fail (ps : PageSetup) (st : LoopState) (row : Row)
    (hv : rowSkipped row = false)
    (htrig : (decide (150 < (pyStrip row.wishes).length) ||
       (decide (max_messages_per_slide ≤ st.messagesOnSlide) ||
        decide (st.currentSlide = none))) = true)
    (hlen : st.slides.length < 2) :
    ∃ m, processRow ps st row = Except.error (PyErr.valueError m) := by
  obtain ⟨m, hm⟩ := (duplicate_slide_valueError_iff st.slides 2
    (Slide.messageCopy (st.dups + 1))).mpr (Or.inr hlen)
  refine ⟨m, ?_⟩
  have h2 : (pyStrip row.wishes == "" || pyLower (pyStrip row.wishes) == "nan") = false := by
    simpa [rowSkipped] using hv
  simp only [processRow, h2, message_template_index, Bool.or_assoc, htrig,
    Bool.false_eq_true, if_false, if_true, hm]

/-! ## Helper lemmas about the box trace -/

theorem msgBoxesOn_append_pair (boxes : List TextBox) (mb sb : TextBox) (id : Nat)
    (hm : mb.role = Role.message) (hs : sb.role = Role.signature) :
    msgBoxesOn (boxes ++ [mb, sb]) id =
      msgBoxesOn boxes id ++ (if mb.slideId = id then [mb] else []) := by
  unfold msgBoxesOn
  rw [List.filter_append]
  congr 1
  by_cases hid : mb.slideId = id <;> simp [isMsgOn, hm, hs, hid]

theorem msgBoxesOn_fresh (boxes : List TextBox) (d : Nat)
    (hle : ∀ b ∈ boxes, b.slideId ≤ d) :
    msgBoxesOn boxes (d + 1) = [] := by
  unfold msgBoxesOn
  rw [List.filter_eq_nil_iff]
  intro b hb
  simp only [isMsgOn, Bool.and_eq_true, beq_iff_eq, not_and]
  intro _
  have := hle b hb
  omega

theorem Paired.append_pair {l : List TextBox} (h : Paired l) (mb sb : TextBox)
    (hm : mb.role = Role.message) (hs : sb.role = Role.signature)
    (e1 : sb.slideId = mb.slideId) (e2 : sb.left = mb.left)
    (e3 : sb.top = mb.top + mb.boundHeight + 10)
    (e4 : sb.slot = mb.slot) (e5 : sb.boundHeight = mb.boundHeight) :
    Paired (l ++ [mb, sb]) := by
  induction h with
  | nil => exact Paired.pair mb sb [] hm hs e1 e2 e3 e4 e5 Paired.nil
  | pair a b rest ha hb f1 f2 f3 f4 f5 hrest ih =>
    exact Paired.pair a b (rest ++ [mb, sb]) ha hb f1 f2 f3 f4 f5 ih

/-! ## Preservation of the loop invariant -/

theorem GoodState_fresh (ps : PageSetup) (st : LoopState) (mb sb : TextBox) (newM : Nat)
    (hg : GoodState ps st)
    (hm : mb.role = Role.message) (hs : sb.role = Role.signature)
    (hid : mb.slideId = st.dups + 1) (hslot : mb.slot = 0)
    (hbox : BoxOk ps mb)
    (e1 : sb.slideId = mb.slideId) (e2 : sb.left = mb.left)
    (e3 : sb.top = mb.top + mb.boundHeight + 10)
    (e4 : sb.slot = mb.slot) (e5 : sb.boundHeight = mb.boundHeight)
    (hnewM : (newM = 2 ∧ 150 < mb.text.length) ∨ (newM = 1 ∧ mb.text.length ≤ 150)) :
    GoodState ps
      { messagesOnSlide := newM, currentSlide := some (st.dups + 1),
        slides := st.slides.take 2 ++ [Slide.messageCopy (st.dups + 1)] ++ st.slides.drop 2,
        dups := st.dups + 1, boxes := st.boxes ++ [mb, sb] } := by
  have hfresh : msgBoxesOn st.boxes (st.dups + 1) = [] :=
    msgBoxesOn_fresh st.boxes st.dups hg.ids_le
  have happ : ∀ id, msgBoxesOn (st.boxes ++ [mb, sb]) id =
      msgBoxesOn st.boxes id ++ (if mb.slideId = id then [mb] else []) :=
    fun id => msgBoxesOn_append_pair st.boxes mb sb id hm hs
  have hne : ∀ id, id ≠ st.dups + 1 →
      msgBoxesOn (st.boxes ++ [mb, sb]) id = msgBoxesOn st.boxes id := by
    intro id hne
    rw [happ id, if_neg (fun h => hne (hid ▸ h).symm), List.append_nil]
  have heq : msgBoxesOn (st.boxes ++ [mb, sb]) (st.dups + 1) = [mb] := by
    rw [happ _, if_pos hid, hfresh, List.nil_append]
  constructor
  · show 2 ≤ (st.slides.take 2 ++ [Slide.messageCopy (st.dups + 1)] ++ st.slides.drop 2).length
    have := hg.slides_len
    simp only [List.length_append, List.length_take, List.length_drop,
      List.length_cons, List.length_nil]
    omega
  · show ∀ b ∈ st.boxes ++ [mb, sb], b.slideId ≤ st.dups + 1
    intro b hb
    rcases List.mem_append.mp hb with h | h
    · exact le_trans (hg.ids_le b h) (Nat.le_succ _)
    · have : b = mb ∨ b = sb := by simpa using h
      rcases this with rfl | rfl
      · omega
      · rw [e1, hid]
  · show ∀ id, (msgBoxesOn (st.boxes ++ [mb, sb]) id).map TextBox.slot =
      List.range (msgBoxesOn (st.boxes ++ [mb, sb]) id).length
    intro id
    by_cases hcase : id = st.dups + 1
    · subst hcase
      rw [heq]
      simp [hslot, List.range_succ]
    · rw [hne id hcase]
      exact hg.slots id
  · show ∀ id, (msgBoxesOn (st.boxes ++ [mb, sb]) id).length ≤ 2
    intro id
    by_cases hcase : id = st.dups + 1
    · subst hcase
      rw [heq]
      simp
    · rw [hne id hcase]
      exact hg.at_most_two id
  · show ∀ id b, b ∈ msgBoxesOn (st.boxes ++ [mb, sb]) id → 150 < b.text.length →
      (msgBoxesOn (st.boxes ++ [mb, sb]) id).length = 1
    intro id b hb hlong
    by_cases hcase : id = st.dups + 1
    · subst hcase
      rw [heq]
      rfl
    · rw [hne id hcase] at hb ⊢
      exact hg.long_alone id b hb hlong
  · show ∀ b ∈ st.boxes ++ [mb, sb], BoxOk ps b
    intro b hb
    rcases List.mem_append.mp hb with h | h
    · exact hg.box_ok b h
    · have : b = mb ∨ b = sb := by simpa using h
      rcases this with rfl | rfl
      · exact hbox
      · intro hrole
        simp [hs] at hrole
  · show Paired (st.boxes ++ [mb, sb])
    exact hg.paired.append_pair mb sb hm hs e1 e2 e3 e4 e5
  · show CurrentOk
      { messagesOnSlide := newM, currentSlide := some (st.dups + 1),
        slides := st.slides.take 2 ++ [Slide.messageCopy (st.dups + 1)] ++ st.slides.drop 2,
        dups := st.dups + 1, boxes := st.boxes ++ [mb, sb] }
    simp only [CurrentOk]
    refine ⟨trivial, ?_⟩
    rcases hnewM with ⟨rfl, hlong⟩ | ⟨rfl, hshort⟩
    · left
      refine ⟨rfl, by simp [heq], ?_⟩
      exact ⟨mb, by simp [heq], hlong⟩
    · right
      refine ⟨by omega, by simp [heq], ?_⟩
      intro b hb
      rw [heq] at hb
      have : b = mb := by simpa using hb
      rw [this]
      exact hshort

theorem GoodState_cont (ps : PageSetup) (st : LoopState) (mb sb : TextBox) (c : Nat)
    (hg : GoodState ps st)
    (hc : st.currentSlide = some c) (hm2 : st.messagesOnSlide < 2)
    (hm : mb.role = Role.message) (hs : sb.role = Role.signature)
    (hid : mb.slideId = c) (hslot : mb.slot = st.messagesOnSlide)
    (hshort : mb.text.length ≤ 150)
    (hbox : BoxOk ps mb)
    (e1 : sb.slideId = mb.slideId) (e2 : sb.left = mb.left)
    (e3 : sb.top = mb.top + mb.boundHeight + 10)
    (e4 : sb.slot = mb.slot) (e5 : sb.boundHeight = mb.boundHeight) :
    GoodState ps
      { st with messagesOnSlide := st.messagesOnSlide + 1,
                boxes := st.boxes ++ [mb, sb] } := by
  have hcur := hg.current_ok
  rw [CurrentOk, hc] at hcur
  obtain ⟨hcd, hdisj⟩ := hcur
  have hcount : (msgBoxesOn st.boxes c).length = st.messagesOnSlide ∧
      ∀ b ∈ msgBoxesOn st.boxes c, b.text.length ≤ 150 := by
    rcases hdisj with ⟨habs, -⟩ | ⟨-, h1, h2⟩
    · omega
    · exact ⟨h1, h2⟩
  have happ : ∀ id, msgBoxesOn (st.boxes ++ [mb, sb]) id =
      msgBoxesOn st.boxes id ++ (if mb.slideId = id then [mb] else []) :=
    fun id => msgBoxesOn_append_pair st.boxes mb sb id hm hs
  have hne : ∀ id, id ≠ c →
      msgBoxesOn (st.boxes ++ [mb, sb]) id = msgBoxesOn st.boxes id := by
    intro id hneq
    rw [happ id, if_neg (fun h => hneq (hid ▸ h).symm), List.append_nil]
  have heq : msgBoxesOn (st.boxes ++ [mb, sb]) c = msgBoxesOn st.boxes c ++ [mb] := by
    rw [happ c, if_pos hid]
  constructor
  · show 2 ≤ st.slides.length
    exact hg.slides_len
  · show ∀ b ∈ st.boxes ++ [mb, sb], b.slideId ≤ st.dups
    intro b hb
    rcases List.mem_append.mp hb with h | h
    · exact hg.ids_le b h
    · have : b = mb ∨ b = sb := by simpa using h
      rcases this with rfl | rfl
      · rw [hid, hcd]
      · rw [e1, hid, hcd]
  · show ∀ id, (msgBoxesOn (st.boxes ++ [mb, sb]) id).map TextBox.slot =
      List.range (msgBoxesOn (st.boxes ++ [mb, sb]) id).length
    intro id
    by_cases hcase : id = c
    · subst hcase
      rw [heq]
      simp only [List.map_append, List.length_append, List.map_cons, List.map_nil,
        List.length_cons, List.length_nil]
      rw [hg.slots id, hslot, hcount.1]
      rw [Nat.add_zero, ← List.range_succ]
    · rw [hne id hcase]
      exact hg.slots id
  · show ∀ id, (msgBoxesOn (st.boxes ++ [mb, sb]) id).length ≤ 2
    intro id
    by_cases hcase : id = c
    · subst hcase
      rw [heq]
      simp only [List.length_append, List.length_cons, List.length_nil]
      omega
    · rw [hne id hcase]
      exact hg.at_most_two id
  · show ∀ id b, b ∈ msgBoxesOn (st.boxes ++ [mb, sb]) id → 150 < b.text.length →
      (msgBoxesOn (st.boxes ++ [mb, sb]) id).length = 1
    intro id b hb hlong
    by_cases hcase : id = c
    · subst hcase
      rw [heq] at hb
      rcases List.mem_append.mp hb with h | h
      · have := hcount.2 b h
        omega
      · have : b = mb := by simpa using h
        rw [this] at hlong
        omega
    · rw [hne id hcase] at hb ⊢
      exact hg.long_alone id b hb hlong
  · show ∀ b ∈ st.boxes ++ [mb, sb], BoxOk ps b
    intro b hb
    rcases List.mem_append.mp hb with h | h
    · exact hg.box_ok b h
    · have : b = mb ∨ b = sb := by simpa using h
      rcases this with rfl | rfl
      · exact hbox
      · intro hrole
        simp [hs] at hrole
  · show Paired (st.boxes ++ [mb, sb])
    exact hg.paired.append_pair mb sb hm hs e1 e2 e3 e4 e5
  · show CurrentOk
      { st with messagesOnSlide := st.messagesOnSlide + 1,
                boxes := st.boxes ++ [mb, sb] }
    rw [CurrentOk]
    simp only [hc]
    refine ⟨hcd, Or.inr ⟨by omega, ?_, ?_⟩⟩
    · rw [heq]
      simp only [List.length_append, List.length_cons, List.length_nil]
      rw [hcount.1]
    · intro b hb
      rw [heq] at hb
      rcases List.mem_append.mp hb with h | h
      · exact hcount.2 b h
      · have : b = mb := by simpa using h
        rw [this]
        exact hshort

theorem processRow_step (ps : PageSetup) (st : LoopState) (row : Row)
    (hg : GoodState ps st) (hv : rowSkipped row = false) :
    ∃ st2 mb sb, processRow ps st row = Except.ok st2 ∧ GoodState ps st2 ∧
      st2.boxes = st.boxes ++ [mb, sb] ∧
      mb.role = Role.message ∧ sb.role = Role.signature ∧
      mb.text = pyStrip row.wishes ∧
      sb.text = signatureText (formatName row.name) := by
  by_cases hlong : 150 < (pyStrip row.wishes).length
  · refine ⟨_, _, _, processRow_long ps st row hv hlong hg.slides_len,
      ?_, rfl, rfl, rfl, rfl, rfl⟩
    refine GoodState_fresh ps st _ _ 2 hg rfl rfl rfl rfl ?_ rfl rfl rfl rfl rfl
      (Or.inl ⟨rfl, hlong⟩)
    intro _
    refine ⟨fun _ => ⟨rfl, rfl, rfl⟩, fun hsh => ?_⟩
    dsimp only at hsh
    omega
  · have hshort : (pyStrip row.wishes).length ≤ 150 := by omega
    by_cases htrig : 2 ≤ st.messagesOnSlide ∨ st.currentSlide = none
    · refine ⟨_, _, _, processRow_short_new ps st row hv hshort htrig hg.slides_len,
        ?_, rfl, rfl, rfl, rfl, rfl⟩
      refine GoodState_fresh ps st _ _ 1 hg rfl rfl rfl rfl ?_ rfl rfl rfl rfl rfl
        (Or.inr ⟨rfl, hshort⟩)
      intro _
      refine ⟨fun hlg => ?_, fun _ => Or.inl ⟨rfl, rfl, rfl⟩⟩
      dsimp only at hlg
      omega
    · push_neg at htrig
      obtain ⟨hm2, hcne⟩ := htrig
      obtain ⟨c, hc⟩ := Option.ne_none_iff_exists'.mp hcne
      refine ⟨_, _, _, processRow_short_cont ps st row c hv hshort hc hm2,
        ?_, rfl, rfl, rfl, rfl, rfl⟩
      refine GoodState_cont ps st _ _ c hg hc hm2 rfl rfl rfl rfl hshort ?_
        rfl rfl rfl rfl rfl
      intro _
      refine ⟨fun hlg => ?_, fun _ => ?_⟩
      · dsimp only at hlg
        omega
      · dsimp only
        have hm01 : st.messagesOnSlide = 0 ∨ st.messagesOnSlide = 1 := by omega
        rcases hm01 with h0 | h1
        · exact Or.inl ⟨h0, rfl, by rw [h0]; simp⟩
        · exact Or.inr ⟨h1, rfl, by rw [h1]; simp⟩

/-- Master lemma: from any invariant state the loop succeeds, preserves the
invariant, and appends one message box and one signature box per
non-skipped row. -/
theorem runLoop_run (ps : PageSetup) (rows : List Row) :
    ∀ st, GoodState ps st →
    ∃ fin, runLoop ps st rows = Except.ok fin ∧ GoodState ps fin ∧
      ∃ added, fin.boxes = st.boxes ++ added ∧
        (added.filter (fun b => b.role == Role.message)).length =
          (rows.filter (fun r => !rowSkipped r)).length ∧
        (added.filter (fun b => b.role == Role.signature)).length =
          (rows.filter (fun r => !rowSkipped r)).length ∧
        added.length = 2 * (rows.filter (fun r => !rowSkipped r)).length := by
  induction rows with
  | nil =>
    intro st hg
    exact ⟨st, rfl, hg, [], by simp, by simp, by simp, by simp⟩
  | cons r rs ih =>
    intro st hg
    by_cases hskip : rowSkipped r = true
    · obtain ⟨fin, hrun, hgf, added, hadd, hcm, hcs, hln⟩ := ih st hg
      refine ⟨fin, ?_, hgf, added, hadd, ?_, ?_, ?_⟩
      · simp only [runLoop, processRow_skipped ps st r hskip]
        exact hrun
      · simpa [List.filter_cons, hskip] using hcm
      · simpa [List.filter_cons, hskip] using hcs
      · simpa [List.filter_cons, hskip] using hln
    · have hv : rowSkipped r = false := by simpa using hskip
      obtain ⟨st2, mb, sb, hstep, hg2, hboxes, hmr, hsr, -, -⟩ :=
        processRow_step ps st r hg hv
      obtain ⟨fin, hrun, hgf, added, hadd, hcm, hcs, hln⟩ := ih st2 hg2
      refine ⟨fin, ?_, hgf, [mb, sb] ++ added, ?_, ?_, ?_, ?_⟩
      · simp only [runLoop, hstep]
        exact hrun
      · rw [hadd, hboxes, List.append_assoc]
      · rw [List.filter_append]
        simp [List.filter_cons, hmr, hsr, hv, hcm]
      · rw [List.filter_append]
        simp [List.filter_cons, hmr, hsr, hv, hcs]
      · simp only [List.length_append, List.filter_cons, hv, List.length_cons]
        simp only [Bool.not_false, if_true]
        simp only [List.length_cons, List.length_nil]
        omega

/-- The initial loop state satisfies the invariant whenever the template
has at least 2 slides. -/
theorem initLoopState_good (ps : PageSetup) (tmpl : List Slide)
    (hlen : 2 ≤ tmpl.length) : GoodState ps (initLoopState tmpl) := by
  constructor
  · exact hlen
  · intro b hb
    simp [initLoopState] at hb
  · intro id
    simp [initLoopState, msgBoxesOn]
  · intro id
    simp [initLoopState, msgBoxesOn]
  · intro id b hb
    simp [initLoopState, msgBoxesOn] at hb
  · intro b hb
    simp [initLoopState] at hb
  · exact Paired.nil
  · rw [CurrentOk]
    exact ⟨rfl, rfl⟩

/-! ## String lemmas: the formatted name contains no line break -/

theorem pySplitlinesAux_cons_nb (c : Char) (rest acc : List Char)
    (hc : pyIsLineBreak c = false) :
    pySplitlinesAux (c :: rest) acc = pySplitlinesAux rest (c :: acc) := by
  rw [pySplitlinesAux.eq_def]
  split
  · rename_i heq
    exact absurd heq (by simp)
  · rename_i rest2 heq
    have hcr : c = '\x0d' := by
      injection heq
    rw [hcr] at hc
    exact absurd hc (by decide)
  · rename_i h1 h2
    injection h2 with e1 e2
    subst e1
    subst e2
    rw [hc]
    simp

theorem pySplitlinesAux_no_break (l : List Char) :
    ∀ acc, (∀ c ∈ l, pyIsLineBreak c = false) →
    pySplitlinesAux l acc =
      if (acc.reverse ++ l).isEmpty then [] else [String.mk (acc.reverse ++ l)] := by
  induction l with
  | nil =>
    intro acc h
    rw [pySplitlinesAux]
    simp
  | cons c rest ih =>
    intro acc h
    rw [pySplitlinesAux_cons_nb c rest acc (h c (by simp))]
    rw [ih (c :: acc) (fun x hx => h x (by simp [hx]))]
    simp

theorem pyJoin_pySplitlines_no_break (s : String)
    (h : ∀ c ∈ s.data, pyIsLineBreak c = false) :
    pyJoin ", " (pySplitlines s) = s := by
  unfold pySplitlines
  rw [pySplitlinesAux_no_break s.data [] h]
  simp only [List.reverse_nil, List.nil_append]
  by_cases he : s.data.isEmpty = true
  · rw [if_pos he]
    cases s with
    | mk l =>
      simp only [List.isEmpty_iff] at he
      subst he
      rfl
  · rw [if_neg he]
    simp only [pyJoin, pyJoinRest]
    apply String.ext
    rw [String.data_append]
    cases s with
    | mk l => simp

theorem pyIsSpace_of_lineBreak (c : Char) (h : pyIsLineBreak c = true) :
    pyIsSpace c = true := by
  simp [pyIsLineBreak, pyLineBreaks, List.contains_cons] at h
  rcases h with rfl | rfl | rfl | rfl | rfl | rfl | rfl | rfl | rfl | rfl <;> decide

theorem pySplitAux_no_space (l : List Char) :
    ∀ acc, (∀ c ∈ acc, pyIsSpace c = false) →
    ∀ w ∈ pySplitAux l acc, ∀ c ∈ w.data, pyIsSpace c = false := by
  induction l with
  | nil =>
    intro acc hacc w hw c hcw
    rw [pySplitAux] at hw
    split at hw
    · simp at hw
    · have hweq : w = String.mk acc.reverse := by simpa using hw
      subst hweq
      simp only [String.mk] at hcw
      exact hacc c (List.mem_reverse.mp hcw)
  | cons d rest ih =>
    intro acc hacc w hw c hcw
    rw [pySplitAux] at hw
    split at hw
    · rename_i hd
      split at hw
      · exact ih [] (by simp) w hw c hcw
      · rcases List.mem_cons.mp hw with hweq | hw2
        · subst hweq
          simp only [String.mk] at hcw
          exact hacc c (List.mem_reverse.mp hcw)
        · exact ih [] (by simp) w hw2 c hcw
    · rename_i hd
      refine ih (d :: acc) ?_ w hw c hcw
      intro x hx
      rcases List.mem_cons.mp hx with rfl | hx2
      · simpa using hd
      · exact hacc x hx2

theorem pySplit_no_space (s : String) (w : String) (hw : w ∈ pySplit s)
    (c : Char) (hc : c ∈ w.data) : pyIsSpace c = false :=
  pySplitAux_no_space s.data [] (by simp) w hw c hc

theorem pyJoinRest_chars (sep : String) (l : List String) (c : Char)
    (hc : c ∈ (pyJoinRest sep l).data) :
    c ∈ sep.data ∨ ∃ w ∈ l, c ∈ w.data := by
  induction l with
  | nil => simp [pyJoinRest] at hc
  | cons v vs ih =>
    rw [pyJoinRest] at hc
    rw [String.data_append, String.data_append] at hc
    rcases List.mem_append.mp hc with h | h
    · rcases List.mem_append.mp h with h2 | h2
      · exact Or.inl h2
      · exact Or.inr ⟨v, by simp, h2⟩
    · rcases ih h with h2 | ⟨w, hwm, hwc⟩
      · exact Or.inl h2
      · exact Or.inr ⟨w, by simp [hwm], hwc⟩

theorem pyJoin_chars (sep : String) (l : List String) (c : Char)
    (hc : c ∈ (pyJoin sep l).data) :
    c ∈ sep.data ∨ ∃ w ∈ l, c ∈ w.data := by
  cases l with
  | nil => simp [pyJoin] at hc
  | cons w ws =>
    rw [pyJoin, String.data_append] at hc
    rcases List.mem_append.mp hc with h | h
    · exact Or.inr ⟨w, by simp, h⟩
    · rcases pyJoinRest_chars sep ws c h with h2 | ⟨v, hvm, hvc⟩
      · exact Or.inl h2
      · exact Or.inr ⟨v, by simp [hvm], hvc⟩

theorem toUpper_keeps_nonspace (c : Char) :
    pyIsSpace c = false → pyIsSpace c.toUpper = false := by
  intro h
  simp only [Char.toUpper]
  split
  · rename_i hcond
    obtain ⟨h1, h2⟩ := hcond
    interval_cases hn : c.toNat <;> decide
  · exact h

theorem toLower_keeps_nonspace (c : Char) :
    pyIsSpace c = false → pyIsSpace c.toLower = false := by
  intro h
  simp only [Char.toLower]
  split
  · rename_i hcond
    obtain ⟨h1, h2⟩ := hcond
    interval_cases hn : c.toNat <;> decide
  · exact h

theorem formatName_no_break (raw : String) :
    ∀ c ∈ (formatName raw).data, pyIsLineBreak c = false := by
  intro c hc
  unfold formatName at hc
  rcases pyJoin_chars " " _ c hc with h | ⟨w, hwm, hwc⟩
  · have : c = ' ' := by simpa using h
    subst this
    decide
  · rcases List.mem_map.mp hwm with ⟨w2, hw2m, hw2e⟩
    have hw2 : w2 ∈ pySplit (pyStrip raw) := (List.mem_filter.mp hw2m).1
    have hnos : ∀ x ∈ w2.data, pyIsSpace x = false :=
      fun x hx => pySplit_no_space (pyStrip raw) w2 hw2 x hx
    -- characters of `pyCapitalize w2` are case-mapped characters of `w2`
    subst hw2e
    by_contra hbr
    have hbr2 : pyIsLineBreak c = true := by
      revert hbr
      cases pyIsLineBreak c <;> simp
    -- a line-break char is a whitespace char, but every char of the
    -- capitalized word arises from a char of `w2` by toUpper/toLower,
    -- which maps non-whitespace to non-whitespace on these tables
    rcases hcap : w2.data with _ | ⟨d, ds⟩
    · rw [pyCapitalize, hcap] at hwc
      simp at hwc
    · rw [pyCapitalize, hcap] at hwc
      simp only [String.mk] at hwc
      rcases List.mem_cons.mp hwc with rfl | hmem
      · have hd : pyIsSpace d = false := hnos d (by rw [hcap]; simp)
        have : pyIsSpace d.toUpper = false := by
          revert hd
          exact toUpper_keeps_nonspace d
        rw [pyIsSpace_of_lineBreak _ hbr2] at this
        cases this
      · rcases List.mem_map.mp hmem with ⟨e, hem, hee⟩
        have he : pyIsSpace e = false := hnos e (by rw [hcap]; simp [hem])
        have : pyIsSpace e.toLower = false := by
          revert he
          exact toLower_keeps_nonspace e
        rw [hee] at this
        rw [pyIsSpace_of_lineBreak _ hbr2] at this
        cases this

/-- The formatted name never contains a line break, so
`', '.join(name.splitlines())` is the name itself. -/
theorem pyJoin_pySplitlines_formatName (raw : String) :
    pyJoin ", " (pySplitlines (formatName raw)) = formatName raw :=
  pyJoin_pySplitlines_no_break _ (formatName_no_break raw)

/-- A loop over rows that are all skipped leaves the state unchanged. -/
theorem runLoop_all_skipped (ps : PageSetup) (rows : List Row) :
    ∀ st, (∀ r ∈ rows, rowSkipped r = true) → runLoop ps st rows = Except.ok st := by
  induction rows with
  | nil => intro st _; rfl
  | cons r rs ih =>
    intro st hall
    simp only [runLoop, processRow_skipped ps st r (hall r (by simp))]
    exact ih st (fun x hx => hall x (by simp [hx]))

/-! ## The claims -/

/-- C1: the spreadsheet row count determines the number of generated text
boxes. For every spreadsheet, the message loop succeeds and adds exactly
one message text box and one signature text box per row whose stripped
'Wishes' value is non-empty and not 'nan' (case-insensitively); rows whose
stripped 'Wishes' value is empty or 'nan' add no text boxes, and when all
rows are valid the number of text boxes added to message slides is
`2 * (number of rows)` — a function of the row count alone. -/
theorem C1_row_count_determines_boxes (ps : PageSetup) (tmpl : List Slide)
    (rows : List Row) (hlen : 2 ≤ tmpl.length) :
    ∃ fin, runLoop ps (initLoopState tmpl) rows = Except.ok fin ∧
      (fin.boxes.filter (fun b => b.role == Role.message)).length =
        (rows.filter (fun r => !rowSkipped r)).length ∧
      (fin.boxes.filter (fun b => b.role == Role.signature)).length =
        (rows.filter (fun r => !rowSkipped r)).length ∧
      ((∀ r ∈ rows, rowSkipped r = false) → fin.boxes.length = 2 * rows.length) ∧
      (∀ st r, rowSkipped r = true → processRow ps st r = Except.ok st) := by
  obtain ⟨fin, hrun, hgf, added, hadd, hcm, hcs, hln⟩ :=
    runLoop_run ps rows (initLoopState tmpl) (initLoopState_good ps tmpl hlen)
  have hinit : (initLoopState tmpl).boxes = [] := rfl
  rw [hinit, List.nil_append] at hadd
  subst hadd
  refine ⟨fin, hrun, hcm, hcs, ?_, fun st r h => processRow_skipped ps st r h⟩
  intro hall
  rw [hln, List.filter_eq_self.mpr (fun r hr => by simp [hall r hr])]

/-- Witness for C1: a two-row spreadsheet (one valid row, one 'nan' row)
adds exactly one message box and one signature box. -/
theorem C1_row_count_determines_boxes_witness :
    ∃ fin, runLoop { slideWidth := 960, slideHeight := 540 }
        (initLoopState [Slide.cover, Slide.template])
        [{ name := "ann", wishes := "happy day", boundHeight := 40 },
         { name := "bob", wishes := " nan ", boundHeight := 40 }] = Except.ok fin ∧
      (fin.boxes.filter (fun b => b.role == Role.message)).length = 1 ∧
      (fin.boxes.filter (fun b => b.role == Role.signature)).length = 1 := by
  obtain ⟨fin, hrun, hcm, hcs, -, -⟩ :=
    C1_row_count_determines_boxes { slideWidth := 960, slideHeight := 540 }
      [Slide.cover, Slide.template]
      [{ name := "ann", wishes := "happy day", boundHeight := 40 },
       { name := "bob", wishes := " nan ", boundHeight := 40 }] (by decide)
  refine ⟨fin, hrun, ?_, ?_⟩
  · rw [hcm]
    decide
  · rw [hcs]
    decide

/-- C9: `rgb_to_ole(red, green, blue)` returns exactly
`red + 256 * green + 65536 * blue`; for components in `[0, 255]` the
result lies in `[0, 2^24)`, each component is recovered by the round trip
`red = result mod 256`, `green = (result div 256) mod 256`,
`blue = result div 65536`, and the mapping is injective. -/
theorem C9_rgb_to_ole_encoding (red green blue : Nat)
    (hr : red ≤ 255) (hg : green ≤ 255) (hb : blue ≤ 255) :
    rgb_to_ole red green blue = red + 256 * green + 65536 * blue ∧
    rgb_to_ole red green blue < 2 ^ 24 ∧
    rgb_to_ole red green blue % 256 = red ∧
    rgb_to_ole red green blue / 256 % 256 = green ∧
    rgb_to_ole red green blue / 65536 = blue ∧
    (∀ r2 g2 b2 : Nat, r2 ≤ 255 → g2 ≤ 255 → b2 ≤ 255 →
      rgb_to_ole red green blue = rgb_to_ole r2 g2 b2 →
      red = r2 ∧ green = g2 ∧ blue = b2) := by
  unfold rgb_to_ole
  refine ⟨by ring, by omega, by omega, by omega, by omega, ?_⟩
  intro r2 g2 b2 h1 h2 h3 h4
  omega

/-- Witness for C9 at `(12, 34, 56)`. -/
theorem C9_rgb_to_ole_encoding_witness :
    rgb_to_ole 12 34 56 = 12 + 256 * 34 + 65536 * 56 ∧
    rgb_to_ole 12 34 56 % 256 = 12 ∧
    rgb_to_ole 12 34 56 / 256 % 256 = 34 ∧
    rgb_to_ole 12 34 56 / 65536 = 56 :=
  ⟨(C9_rgb_to_ole_encoding 12 34 56 (by decide) (by decide) (by decide)).1,
   (C9_rgb_to_ole_encoding 12 34 56 (by decide) (by decide) (by decide)).2.2.1,
   (C9_rgb_to_ole_encoding 12 34 56 (by decide) (by decide) (by decide)).2.2.2.1,
   (C9_rgb_to_ole_encoding 12 34 56 (by decide) (by decide) (by decide)).2.2.2.2.1⟩

/-- C2: how many messages fit per slide. Over any full run, every slide
holds at most 2 message boxes and a slide holding a long message (over 150
characters) holds exactly that one box. Moreover one loop step duplicates
a new slide exactly when the row is processed and its message is long, or
the current slide already holds `max_messages_per_slide` messages, or no
current slide exists yet; the duplicate is a fresh copy of the
message-template slide inserted right after slide index 2. After a long
message the counter sits at `max_messages_per_slide`, so the next
processed message always starts another new slide. -/
theorem C2_messages_per_slide (ps : PageSetup) (tmpl : List Slide)
    (rows : List Row) (hlen : 2 ≤ tmpl.length) :
    (∃ fin, runLoop ps (initLoopState tmpl) rows = Except.ok fin ∧
      (∀ id, (msgBoxesOn fin.boxes id).length ≤ 2) ∧
      (∀ id b, b ∈ msgBoxesOn fin.boxes id → 150 < b.text.length →
        (msgBoxesOn fin.boxes id).length = 1)) ∧
    (∀ st st2 row, processRow ps st row = Except.ok st2 →
      (st2.dups = st.dups + 1 ↔
        (rowSkipped row = false ∧
          (150 < (pyStrip row.wishes).length ∨
           max_messages_per_slide ≤ st.messagesOnSlide ∨
           st.currentSlide = none))) ∧
      (st2.dups = st.dups + 1 →
        st2.slides = st.slides.take 2 ++ [Slide.messageCopy (st.dups + 1)] ++
          st.slides.drop 2)) ∧
    (∀ st st2 row, processRow ps st row = Except.ok st2 →
      rowSkipped row = false → 150 < (pyStrip row.wishes).length →
      st2.messagesOnSlide = max_messages_per_slide) := by
  refine ⟨?_, ?_, ?_⟩
  case refine_3 =>
    intro st st2 row h hv hlong
    by_cases hlen2 : 2 ≤ st.slides.length
    · rw [processRow_long ps st row hv hlong hlen2] at h
      injection h with h2
      subst h2
      rfl
    · exfalso
      obtain ⟨m, hm⟩ := processRow_dup_fail ps st row hv (by simp [hlong]) (by omega)
      rw [hm] at h
      cases h
  · obtain ⟨fin, hrun, hgf, -⟩ :=
      runLoop_run ps rows (initLoopState tmpl) (initLoopState_good ps tmpl hlen)
    exact ⟨fin, hrun, hgf.at_most_two, hgf.long_alone⟩
  · intro st st2 row h
    by_cases hskip : rowSkipped row = true
    · rw [processRow_skipped ps st row hskip] at h
      injection h with h2
      subst h2
      refine ⟨⟨fun habs => by omega, ?_⟩, fun habs => by exfalso; omega⟩
      rintro ⟨hvv, -⟩
      rw [hskip] at hvv
      cases hvv
    · have hv : rowSkipped row = false := by simpa using hskip
      by_cases hlong : 150 < (pyStrip row.wishes).length
      · by_cases hlen2 : 2 ≤ st.slides.length
        · rw [processRow_long ps st row hv hlong hlen2] at h
          injection h with h2
          subst h2
          exact ⟨⟨fun _ => ⟨hv, Or.inl hlong⟩, fun _ => rfl⟩, fun _ => rfl⟩
        · exfalso
          obtain ⟨m, hm⟩ := processRow_dup_fail ps st row hv
            (by simp [hlong]) (by omega)
          rw [hm] at h
          cases h
      · have hshort : (pyStrip row.wishes).length ≤ 150 := by omega
        by_cases htrig : 2 ≤ st.messagesOnSlide ∨ st.currentSlide = none
        · by_cases hlen2 : 2 ≤ st.slides.length
          · rw [processRow_short_new ps st row hv hshort htrig hlen2] at h
            injection h with h2
            subst h2
            refine ⟨⟨fun _ => ⟨hv, ?_⟩, fun _ => rfl⟩, fun _ => rfl⟩
            rcases htrig with h | h
            · exact Or.inr (Or.inl h)
            · exact Or.inr (Or.inr h)
          · exfalso
            have htrig2 : (decide (150 < (pyStrip row.wishes).length) ||
                (decide (max_messages_per_slide ≤ st.messagesOnSlide) ||
                 decide (st.currentSlide = none))) = true := by
              rcases htrig with h | h <;> simp [max_messages_per_slide, h]
            obtain ⟨m, hm⟩ := processRow_dup_fail ps st row hv htrig2 (by omega)
            rw [hm] at h
            cases h
        · push_neg at htrig
          obtain ⟨hm2, hcne⟩ := htrig
          obtain ⟨c, hc⟩ := Option.ne_none_iff_exists'.mp hcne
          rw [processRow_short_cont ps st row c hv hshort hc hm2] at h
          injection h with h2
          subst h2
          constructor
          · constructor
            · intro habs
              simp only [] at habs
              omega
            · rintro ⟨-, hor⟩
              exfalso
              rcases hor with h | h | h
              · exact hlong h
              · rw [max_messages_per_slide] at h
                omega
              · rw [hc] at h
                cases h
          · intro habs
            simp only [] at habs
            exfalso
            omega

/-- Witness for C2: one short message lands on a slide holding at most two
message boxes. -/
theorem C2_messages_per_slide_witness :
    ∃ fin, runLoop { slideWidth := 960, slideHeight := 540 }
        (initLoopState [Slide.cover, Slide.template])
        [{ name := "ann", wishes := "hello", boundHeight := 40 }] = Except.ok fin ∧
      (msgBoxesOn fin.boxes 1).length ≤ 2 := by
  obtain ⟨⟨fin, hrun, h1, -⟩, -⟩ :=
    C2_messages_per_slide { slideWidth := 960, slideHeight := 540 }
      [Slide.cover, Slide.template]
      [{ name := "ann", wishes := "hello", boundHeight := 40 }] (by decide)
  exact ⟨fin, hrun, h1 1⟩

/-- C6: text-box coordinates come from the lookup table. In any full run,
every long message box sits at `(SlideWidth // 2 - 250, SlideHeight // 3)`;
every short message box sits at `(100, 100)` when it is the first message
on its slide (lookup index 0) and at `(100, 250)` when it is the second
(index 1) — the `slots` conjunct states that the k-th message box of a
slide carries index k; and `Paired` states that each signature box sits at
the same left coordinate as its message box, 10 points below the message
top plus the reported bound height. -/
theorem C6_text_positions (ps : PageSetup) (tmpl : List Slide) (rows : List Row)
    (hlen : 2 ≤ tmpl.length) :
    ∃ fin, runLoop ps (initLoopState tmpl) rows = Except.ok fin ∧
      (∀ b ∈ fin.boxes, b.role = Role.message →
        (150 < b.text.length →
          b.left = Int.fdiv ps.slideWidth 2 - 250 ∧
          b.top = Int.fdiv ps.slideHeight 3) ∧
        (b.text.length ≤ 150 →
          (b.slot = 0 ∧ b.left = 100 ∧ b.top = 100) ∨
          (b.slot = 1 ∧ b.left = 100 ∧ b.top = 250))) ∧
      (∀ id, (msgBoxesOn fin.boxes id).map TextBox.slot =
        List.range (msgBoxesOn fin.boxes id).length) ∧
      Paired fin.boxes := by
  obtain ⟨fin, hrun, hgf, -⟩ :=
    runLoop_run ps rows (initLoopState tmpl) (initLoopState_good ps tmpl hlen)
  refine ⟨fin, hrun, ?_, hgf.slots, hgf.paired⟩
  intro b hb hrole
  have hbo := hgf.box_ok b hb hrole
  exact ⟨fun hl => (hbo.1 hl).2, hbo.2⟩

/-- Witness for C6: the paired-layout fact on a one-row run. -/
theorem C6_text_positions_witness :
    ∃ fin, runLoop { slideWidth := 960, slideHeight := 540 }
        (initLoopState [Slide.cover, Slide.template])
        [{ name := "ann", wishes := "hello", boundHeight := 40 }] = Except.ok fin ∧
      Paired fin.boxes := by
  obtain ⟨fin, hrun, -, -, hp⟩ :=
    C6_text_positions { slideWidth := 960, slideHeight := 540 }
      [Slide.cover, Slide.template]
      [{ name := "ann", wishes := "hello", boundHeight := 40 }] (by decide)
  exact ⟨fin, hrun, hp⟩

/-- C7: the signature text of every processed row equals `"- "` followed by
`', '.join(...)` of the splitlines of the formatted name — the row's
'Name' value stripped, split on whitespace, each word capitalized and
rejoined with single spaces — and since that name contains no line break,
it equals `"- "` followed by the formatted name itself. -/
theorem C7_signature_formatting (ps : PageSetup) (st : LoopState) (row : Row)
    (hlen : 2 ≤ st.slides.length) (hv : rowSkipped row = false) :
    ∃ st2 mb sb, processRow ps st row = Except.ok st2 ∧
      st2.boxes = st.boxes ++ [mb, sb] ∧ sb.role = Role.signature ∧
      sb.text = "- " ++ pyJoin ", " (pySplitlines (formatName row.name)) ∧
      sb.text = "- " ++ formatName row.name ∧
      formatName row.name =
        pyJoin " " (((pySplit (pyStrip row.name)).filter
          (fun w => !(w == ""))).map pyCapitalize) := by
  have hsig : signatureText (formatName row.name) = "- " ++ formatName row.name := by
    rw [signatureText, pyJoin_pySplitlines_formatName]
  by_cases hlong : 150 < (pyStrip row.wishes).length
  · exact ⟨_, _, _, processRow_long ps st row hv hlong hlen,
      rfl, rfl, rfl, hsig, rfl⟩
  · have hshort : (pyStrip row.wishes).length ≤ 150 := by omega
    by_cases htrig : 2 ≤ st.messagesOnSlide ∨ st.currentSlide = none
    · exact ⟨_, _, _, processRow_short_new ps st row hv hshort htrig hlen,
        rfl, rfl, rfl, hsig, rfl⟩
    · push_neg at htrig
      obtain ⟨hm2, hcne⟩ := htrig
      obtain ⟨c, hc⟩ := Option.ne_none_iff_exists'.mp hcne
      exact ⟨_, _, _, processRow_short_cont ps st row c hv hshort hc hm2,
        rfl, rfl, rfl, hsig, rfl⟩

/-- Witness for C7: the signature for the name `"ann  LEE"` is `"- Ann Lee"`. -/
theorem C7_signature_formatting_witness :
    ∃ st2 mb sb, processRow { slideWidth := 960, slideHeight := 540 }
        (initLoopState [Slide.cover, Slide.template])
        { name := "ann  LEE", wishes := "hello", boundHeight := 40 } =
        Except.ok st2 ∧
      st2.boxes = (initLoopState [Slide.cover, Slide.template]).boxes ++ [mb, sb] ∧
      sb.text = "- Ann Lee" := by
  obtain ⟨st2, mb, sb, h1, h2, -, -, h5, -⟩ :=
    C7_signature_formatting { slideWidth := 960, slideHeight := 540 }
      (initLoopState [Slide.cover, Slide.template])
      { name := "ann  LEE", wishes := "hello", boundHeight := 40 }
      (by decide) (by decide)
  refine ⟨st2, mb, sb, h1, h2, ?_⟩
  rw [h5]
  decide

/-- C8: the index into the coordinate lookup table is always in bounds:
`processRow` never raises `IndexError`, and whenever a message box is
placed its lookup index is 0 for a long message (valid for the one-element
table) and at most 1 otherwise (valid for the two-element table). -/
theorem C8_lookup_index_in_bounds (ps : PageSetup) (st : LoopState) (row : Row) :
    processRow ps st row ≠ Except.error PyErr.indexError ∧
    (∀ st2, processRow ps st row = Except.ok st2 →
      st2.boxes = st.boxes ∨
      ∃ mb sb, st2.boxes = st.boxes ++ [mb, sb] ∧ mb.role = Role.message ∧
        (150 < mb.text.length → mb.slot = 0) ∧
        (mb.text.length ≤ 150 → mb.slot ≤ 1)) := by
  by_cases hskip : rowSkipped row = true
  · rw [processRow_skipped ps st row hskip]
    refine ⟨by simp, fun st2 h => ?_⟩
    injection h with h2
    subst h2
    exact Or.inl rfl
  · have hv : rowSkipped row = false := by simpa using hskip
    by_cases hlong : 150 < (pyStrip row.wishes).length
    · by_cases hlen2 : 2 ≤ st.slides.length
      · rw [processRow_long ps st row hv hlong hlen2]
        refine ⟨by simp, fun st2 h => ?_⟩
        injection h with h2
        subst h2
        exact Or.inr ⟨_, _, rfl, rfl, fun _ => rfl, fun _ => Nat.zero_le 1⟩
      · obtain ⟨m, hm⟩ := processRow_dup_fail ps st row hv (by simp [hlong]) (by omega)
        rw [hm]
        refine ⟨by simp, fun st2 h => ?_⟩
        cases h
    · have hshort : (pyStrip row.wishes).length ≤ 150 := by omega
      by_cases htrig : 2 ≤ st.messagesOnSlide ∨ st.currentSlide = none
      · by_cases hlen2 : 2 ≤ st.slides.length
        · rw [processRow_short_new ps st row hv hshort htrig hlen2]
          refine ⟨by simp, fun st2 h => ?_⟩
          injection h with h2
          subst h2
          exact Or.inr ⟨_, _, rfl, rfl, fun _ => rfl, fun _ => Nat.zero_le 1⟩
        · have htrig2 : (decide (150 < (pyStrip row.wishes).length) ||
              (decide (max_messages_per_slide ≤ st.messagesOnSlide) ||
               decide (st.currentSlide = none))) = true := by
            rcases htrig with h | h <;> simp [max_messages_per_slide, h]
          obtain ⟨m, hm⟩ := processRow_dup_fail ps st row hv htrig2 (by omega)
          rw [hm]
          refine ⟨by simp, fun st2 h => ?_⟩
          cases h
      · push_neg at htrig
        obtain ⟨hm2, hcne⟩ := htrig
        obtain ⟨c, hc⟩ := Option.ne_none_iff_exists'.mp hcne
        rw [processRow_short_cont ps st row c hv hshort hc hm2]
        refine ⟨by simp, fun st2 h => ?_⟩
        injection h with h2
        subst h2
        refine Or.inr ⟨_, _, rfl, rfl, fun hl => ?_, fun _ => ?_⟩
        · exact absurd (show 150 < (pyStrip row.wishes).length from hl) (by omega)
        · exact (show st.messagesOnSlide ≤ 1 by omega)

/-- Witness for C8: no `IndexError` on a concrete state and row. -/
theorem C8_lookup_index_in_bounds_witness :
    processRow { slideWidth := 960, slideHeight := 540 }
      (initLoopState [Slide.cover, Slide.template])
      { name := "ann", wishes := "hello", boundHeight := 40 } ≠
      Except.error PyErr.indexError :=
  (C8_lookup_index_in_bounds { slideWidth := 960, slideHeight := 540 }
    (initLoopState [Slide.cover, Slide.template])
    { name := "ann", wishes := "hello", boundHeight := 40 }).1

/-- C3 (code bug in `modify_pptx`): the `except Exception` clause of
`modify_pptx` does catch and print an exception raised by
`CreateObject("PowerPoint.Application")`, but the `finally:` clause then
evaluates `powerpoint.Quit()` with the local `powerpoint` never bound, so
an `UnboundLocalError`/`NameError` propagates to the caller and the
function does not return normally. By contrast `create_anniversary_slides`
(which has no `finally:`) returns normally after catching the same
failure. -/
theorem C3_modify_pptx_uncaught_on_createobject_failure :
    modify_pptx { inputFileExists := true, outputFileExists := false,
                  removeOk := true, createObjectOk := false,
                  bodyOutcome := Except.ok (), quitOk := true } =
      FuncResult.uncaught (PyErr.nameError "powerpoint") ∧
    create_anniversary_slides
      { templateFileExists := true, columns := ["Name", "Wishes"], rows := [],
        templateSlides := [Slide.cover, Slide.template],
        pageSetup := { slideWidth := 960, slideHeight := 540 },
        createObjectOk := false } =
      FuncResult.returnedCaught (PyErr.comError "CreateObject failed") :=
  ⟨rfl, rfl⟩

/-- C4: missing files or columns print a message and return before the
`try:` block (so before any PowerPoint automation object or output file is
created): a missing template file, missing required columns after
stripping the column names, a missing input file for `modify_pptx`, and an
existing output file whose removal raises `PermissionError` all yield an
`earlyReturn`. -/
theorem C4_missing_files_or_columns_early_return :
    (∀ a : CreateArgs, a.templateFileExists = false →
      create_anniversary_slides a =
        FuncResult.earlyReturn "Error: template not found. Run modify_pptx() first.") ∧
    (∀ a : CreateArgs, a.templateFileExists = true →
      required_columns.all (fun c => (a.columns.map pyStrip).contains c) = false →
      create_anniversary_slides a =
        FuncResult.earlyReturn "Error: Missing required columns in Excel file") ∧
    (∀ m : ModifyArgs, m.inputFileExists = false →
      modify_pptx m = FuncResult.earlyReturn "Error: Input PowerPoint file not found") ∧
    (∀ m : ModifyArgs, m.inputFileExists = true → m.outputFileExists = true →
      m.removeOk = false →
      modify_pptx m =
        FuncResult.earlyReturn "Cannot modify output: it is open. Close it and try again.") := by
  refine ⟨?_, ?_, ?_, ?_⟩
  · intro a h
    simp [create_anniversary_slides, h]
  · intro a h1 h2
    simp [create_anniversary_slides, h1, h2]
    intro hx
    exfalso
    have hx2 : (required_columns.all fun c => (a.columns.map pyStrip).contains c) = true := by
      simpa using hx
    rw [hx2] at h2
    cases h2
  · intro m h
    simp [modify_pptx, h]
  · intro m h1 h2 h3
    simp [modify_pptx, h1, h2, h3]

/-- Witness for C4 at concrete inputs: a missing template file, a
spreadsheet without a 'Wishes' column, a missing input presentation, and
a locked output file. -/
theorem C4_missing_files_or_columns_early_return_witness :
    create_anniversary_slides
      { templateFileExists := false, columns := [], rows := [],
        templateSlides := [], pageSetup := { slideWidth := 960, slideHeight := 540 },
        createObjectOk := true } =
      FuncResult.earlyReturn "Error: template not found. Run modify_pptx() first." ∧
    create_anniversary_slides
      { templateFileExists := true, columns := ["Name", "Greetings"], rows := [],
        templateSlides := [Slide.cover, Slide.template],
        pageSetup := { slideWidth := 960, slideHeight := 540 },
        createObjectOk := true } =
      FuncResult.earlyReturn "Error: Missing required columns in Excel file" ∧
    modify_pptx
      { inputFileExists := false, outputFileExists := false, removeOk := true,
        createObjectOk := true, bodyOutcome := Except.ok (), quitOk := true } =
      FuncResult.earlyReturn "Error: Input PowerPoint file not found" ∧
    modify_pptx
      { inputFileExists := true, outputFileExists := true, removeOk := false,
        createObjectOk := true, bodyOutcome := Except.ok (), quitOk := true } =
      FuncResult.earlyReturn "Cannot modify output: it is open. Close it and try again." :=
  ⟨C4_missing_files_or_columns_early_return.1 _ rfl,
   C4_missing_files_or_columns_early_return.2.1 _ rfl (by decide),
   C4_missing_files_or_columns_early_return.2.2.1 _ rfl,
   C4_missing_files_or_columns_early_return.2.2.2 _ rfl rfl rfl⟩

/-- C5 counterexample: a template presentation with zero slides has fewer
than 2 slides, yet `create_anniversary_slides` does not raise the claimed
`ValueError` — `add_name_to_first_slide` accesses `Slides(1)` first (line
56, before the slide-count check of line 57) and the COM host raises
there. -/
theorem C5_counterexample_zero_slides :
    create_anniversary_slides
      { templateFileExists := true, columns := ["Name", "Wishes"], rows := [],
        templateSlides := [], pageSetup := { slideWidth := 960, slideHeight := 540 },
        createObjectOk := true } =
      FuncResult.returnedCaught (PyErr.comError "Slides(1): index out of range") ∧
    create_anniversary_slides
      { templateFileExists := true, columns := ["Name", "Wishes"], rows := [],
        templateSlides := [], pageSetup := { slideWidth := 960, slideHeight := 540 },
        createObjectOk := true } ≠
      FuncResult.returnedCaught (PyErr.valueError
        "Template must have at least 2 slides (cover + message template).") :=
  ⟨rfl, by decide⟩

/-- C5 (amended): with exactly one slide the gate raises the claimed
`ValueError('Template must have at least 2 slides (cover + message
template).')`; with any sub-2 slide count some exception is raised and
caught before any row is processed, so no text boxes are added and no
output is saved (the function ends in `returnedCaught`, not `completed`);
and `duplicate_slide` raises `ValueError` exactly when its index is below
1 or above the slide count. -/
theorem C5_slide_count_gate :
    (∀ a : CreateArgs, a.templateFileExists = true →
      required_columns.all (fun c => (a.columns.map pyStrip).contains c) = true →
      a.createObjectOk = true → a.templateSlides.length = 1 →
      create_anniversary_slides a =
        FuncResult.returnedCaught (PyErr.valueError
          "Template must have at least 2 slides (cover + message template).")) ∧
    (∀ a : CreateArgs, a.templateFileExists = true →
      required_columns.all (fun c => (a.columns.map pyStrip).contains c) = true →
      a.templateSlides.length < 2 →
      ∃ e, create_anniversary_slides a = FuncResult.returnedCaught e) ∧
    (∀ slides i fresh,
      (∃ m, duplicate_slide slides i fresh = Except.error (PyErr.valueError m)) ↔
        (i < 1 ∨ slides.length < i)) := by
  refine ⟨?_, ?_, fun slides i fresh => duplicate_slide_valueError_iff slides i fresh⟩
  · intro a h1 h2 hco h1s
    have hadd : add_name_to_first_slide a.templateSlides = Except.ok () := by
      rw [add_name_to_first_slide, if_neg]
      omega
    have hbody : createBody a = Except.error (PyErr.valueError
        "Template must have at least 2 slides (cover + message template).") := by
      rw [createBody]
      simp [hco, hadd, h1s]
    simp [create_anniversary_slides, h1, h2, hbody]
    simpa using h2
  · intro a h1 h2 h3
    by_cases hco : a.createObjectOk = true
    · by_cases h0 : a.templateSlides.length = 0
      · refine ⟨PyErr.comError "Slides(1): index out of range", ?_⟩
        have hadd : add_name_to_first_slide a.templateSlides =
            Except.error (PyErr.comError "Slides(1): index out of range") := by
          rw [add_name_to_first_slide, if_pos]
          omega
        have hbody : createBody a =
            Except.error (PyErr.comError "Slides(1): index out of range") := by
          rw [createBody]
          simp [hco, hadd]
        simp [create_anniversary_slides, h1, h2, hbody]
        simpa using h2
      · have h1s : a.templateSlides.length = 1 := by omega
        refine ⟨PyErr.valueError
          "Template must have at least 2 slides (cover + message template).", ?_⟩
        have hadd : add_name_to_first_slide a.templateSlides = Except.ok () := by
          rw [add_name_to_first_slide, if_neg]
          omega
        have hbody : createBody a = Except.error (PyErr.valueError
            "Template must have at least 2 slides (cover + message template).") := by
          rw [createBody]
          simp [hco, hadd, h1s]
        simp [create_anniversary_slides, h1, h2, hbody]
        simpa using h2
    · have hco2 : a.createObjectOk = false := by simpa using hco
      refine ⟨PyErr.comError "CreateObject failed", ?_⟩
      have hbody : createBody a = Except.error (PyErr.comError "CreateObject failed") := by
        rw [createBody]
        simp [hco2]
      simp [create_anniversary_slides, h1, h2, hbody]
      simpa using h2

/-- Witness for C5 (amended) on a one-slide template. -/
theorem C5_slide_count_gate_witness :
    create_anniversary_slides
      { templateFileExists := true, columns := ["Name", "Wishes"], rows := [],
        templateSlides := [Slide.cover],
        pageSetup := { slideWidth := 960, slideHeight := 540 },
        createObjectOk := true } =
      FuncResult.returnedCaught (PyErr.valueError
        "Template must have at least 2 slides (cover + message template).") :=
  C5_slide_count_gate.1 _ rfl (by decide) rfl rfl

/-- C10: when every spreadsheet row is skipped, the loop leaves the
presentation untouched (slide count still 2), `Slides.Count > 2` fails so
the blank message-template slide at index 2 survives, and the saved
presentation is cover, blank template, thank-you slide with no message
text boxes. -/
theorem C10_all_rows_skipped_keeps_template (ps : PageSetup) (cols : List String)
    (rows : List Row)
    (hrows : ∀ r ∈ rows, rowSkipped r = true) :
    runLoop ps (initLoopState [Slide.cover, Slide.template]) rows =
      Except.ok (initLoopState [Slide.cover, Slide.template]) ∧
    ¬ ((initLoopState [Slide.cover, Slide.template]).slides.length > 2) ∧
    (required_columns.all (fun c => (cols.map pyStrip).contains c) = true →
      create_anniversary_slides
        { templateFileExists := true, columns := cols, rows := rows,
          templateSlides := [Slide.cover, Slide.template], pageSetup := ps,
          createObjectOk := true } =
        FuncResult.completed ([Slide.cover, Slide.template, Slide.thankYou], [])) := by
  have hloop := runLoop_all_skipped ps rows
    (initLoopState [Slide.cover, Slide.template]) hrows
  refine ⟨hloop, by decide, ?_⟩
  intro hcols
  have hbody : createBody
      { templateFileExists := true, columns := cols, rows := rows,
        templateSlides := [Slide.cover, Slide.template], pageSetup := ps,
        createObjectOk := true } =
      Except.ok ([Slide.cover, Slide.template, Slide.thankYou], []) := by
    rw [createBody]
    simp only [add_name_to_first_slide]
    rw [hloop]
    simp [add_thank_you_slide, initLoopState]
  simp [create_anniversary_slides, hcols, hbody]
  simpa using hcols

/-- Witness for C10: a one-row spreadsheet whose only 'Wishes' value is
`" nan "`. -/
theorem C10_all_rows_skipped_keeps_template_witness :
    create_anniversary_slides
      { templateFileExists := true, columns := ["Name", "Wishes"],
        rows := [{ name := "bob", wishes := " nan ", boundHeight := 0 }],
        templateSlides := [Slide.cover, Slide.template],
        pageSetup := { slideWidth := 960, slideHeight := 540 },
        createObjectOk := true } =
      FuncResult.completed ([Slide.cover, Slide.template, Slide.thankYou], []) :=
  (C10_all_rows_skipped_keeps_template { slideWidth := 960, slideHeight := 540 }
    ["Name", "Wishes"] [{ name := "bob", wishes := " nan ", boundHeight := 0 }]
    (by decide)).2.2 (by decide)

end Template
